import Mathlib

/-!
Shallow embedding of the document content-extraction pipeline of
`src/backend/document_processor.py` and the HTTP glue of `src/backend/app.py`.

Modelling conventions:
* Python strings are Lean `String` (Python `len` and slicing count code points,
  as does `String.length` / `List.take` on `String.data`).
* File bytes are `List Nat`.
* External libraries (PyPDF2, python-docx, requests + BeautifulSoup, the Google
  Drive API client, the Gemini model) are oracles gathered in `Env` / `AppEnv`;
  an oracle answering `none` (resp. `Except.error`) stands for the library call
  raising an exception, which the Python code catches locally.
* `pyStrip` models Python `str.strip()` (ASCII whitespace; the rare non-ASCII
  Unicode whitespace stripped by Python is out of scope of every claim).
* `str.splitlines()` is modelled as splitting on the newline character, the only
  line separator produced by the modelled pipeline.
-/

namespace Plivo

/-- Whitespace characters removed by Python `str.strip()` (ASCII part). -/
def isSpace (c : Char) : Bool :=
  c = ' ' || c = '\t' || c = '\n' || c = '\r' || c = '\x0b' || c = '\x0c'

/-- `str.strip()` on a list of code points. -/
def stripList (l : List Char) : List Char :=
  ((l.dropWhile isSpace).reverse.dropWhile isSpace).reverse

/-- Python `s.strip()`. -/
def pyStrip (s : String) : String := String.mk (stripList s.data)

/-- Python `s[:n]` (slice of the first `n` code points). -/
def pySlice (s : String) (n : Nat) : String := String.mk (s.data.take n)

/-- Python `s.lower()` (ASCII case mapping; the filename extensions compared
against are ASCII). -/
def pyLower (s : String) : String := String.mk (s.data.map Char.toLower)

/-- Characters matched by the regex character class `[a-zA-Z0-9_-]`. -/
def isIdChar (c : Char) : Bool :=
  ('a' ≤ c && c ≤ 'z') || ('A' ≤ c && c ≤ 'Z') || ('0' ≤ c && c ≤ '9') ||
    c = '_' || c = '-'

/-- `re.search` of the pattern `lit([a-zA-Z0-9_-]+)` for a literal `lit`:
leftmost match wins, the capture group is greedy (maximal run of id
characters); a position where the literal matches but no id character follows
is not a match, and the search resumes one position further right. -/
def searchLitId (lit : List Char) : List Char → Option (List Char)
  | [] => none
  | c :: rest =>
    if lit.isPrefixOf (c :: rest) then
      let run := ((c :: rest).drop lit.length).takeWhile isIdChar
      if run.isEmpty then searchLitId lit rest else some run
    else searchLitId lit rest

/-- `re.search` of the pattern `[?&]id=([a-zA-Z0-9_-]+)` (line 68). -/
def searchQueryId : List Char → Option (List Char)
  | [] => none
  | c :: rest =>
    if (c = '?' || c = '&') && (['i', 'd', '='].isPrefixOf rest) then
      let run := (rest.drop 3).takeWhile isIdChar
      if run.isEmpty then searchQueryId rest else some run
    else searchQueryId rest

/-- Does `needle` occur as a contiguous sublist of `hay`? -/
def isSubList (needle : List Char) : List Char → Bool
  | [] => needle.isEmpty
  | c :: rest => needle.isPrefixOf (c :: rest) || isSubList needle rest

/-- Python `needle in s` (substring containment). -/
def containsSub (needle s : String) : Bool := isSubList needle.data s.data

/-- `DocumentProcessor.extract_google_drive_id` (lines 57-85).  The four
patterns are tried in order; the body never raises, so the enclosing
`try/except` is dead code.  Each capture group is `+`, hence nonempty. -/
def extract_google_drive_id (url : String) : Option String :=
  if containsSub "drive.google.com" url then
    match searchLitId "/file/d/".data url.data with
    | some g => some (String.mk g)
    | none =>
      match searchQueryId url.data with
      | some g => some (String.mk g)
      | none =>
        match searchLitId "/document/d/".data url.data with
        | some g => some (String.mk g)
        | none =>
          match searchLitId "/spreadsheets/d/".data url.data with
          | some g => some (String.mk g)
          | none => none
  else none

/-- Oracles for the external libraries used by `DocumentProcessor`.
`none` models the library call raising an exception. -/
structure Env where
  /-- PyPDF2: the texts of the pages of the PDF decoded from the bytes
  (`PdfReader(...).pages`, each page's `extract_text()`), in page order. -/
  pdfPages : List Nat → Option (List String)
  /-- python-docx: the texts of the paragraphs of the DOCX, in document
  order. -/
  docxParas : List Nat → Option (List String)
  /-- requests + BeautifulSoup: `soup.get_text()` of the fetched page after
  `script` and `style` elements were decomposed; `none` covers network errors,
  non-2xx statuses (`raise_for_status`) and parse failures. -/
  htmlText : String → Option String
  /-- Whether `self.google_drive_service` is set (credentials present). -/
  driveService : Bool
  /-- `files().get(fileId, fields=name,mimeType)`: the fetched mime type
  (`file_metadata.get('mimeType', '')`). -/
  driveMime : String → Option String
  /-- `files().export(fileId, mimeType)`: exported bytes. -/
  driveExport : String → String → Option (List Nat)
  /-- `files().get_media(fileId)`: downloaded bytes. -/
  driveMedia : String → Option (List Nat)
  /-- `bytes.decode('utf-8')`. -/
  decodeUtf8 : List Nat → Option String

/-- `DocumentProcessor.extract_pdf_text` (lines 143-153): the loop
`text += page.extract_text() + "\n"` followed by `text.strip()`;
any exception yields `""`. -/
def extract_pdf_text (env : Env) (file_stream : List Nat) : String :=
  match env.pdfPages file_stream with
  | none => ""
  | some pages => pyStrip (pages.foldl (fun text page => text ++ page ++ "\n") "")

/-- `DocumentProcessor.extract_docx_text` (lines 155-165). -/
def extract_docx_text (env : Env) (file_stream : List Nat) : String :=
  match env.docxParas file_stream with
  | none => ""
  | some paras => pyStrip (paras.foldl (fun text para => text ++ para ++ "\n") "")

/-- Split on a single separator character (Python `str.split(sep)` for a
one-character separator; also models `str.splitlines()` for text whose only
line separator is the newline — `splitlines` drops a trailing empty line
where `split` keeps it, but the empty chunk is filtered out downstream). -/
def splitChar (sep : Char) : List Char → List (List Char)
  | [] => [[]]
  | c :: rest =>
    if c = sep then [] :: splitChar sep rest
    else
      match splitChar sep rest with
      | [] => [[c]]
      | h :: t => (c :: h) :: t

/-- Python `line.split("  ")`: split on non-overlapping occurrences of two
spaces, left to right. -/
def splitTwoSpaces : List Char → List (List Char)
  | [] => [[]]
  | [c] => [[c]]
  | c1 :: c2 :: rest =>
    if c1 = ' ' && c2 = ' ' then [] :: splitTwoSpaces rest
    else
      match splitTwoSpaces (c2 :: rest) with
      | [] => [[c1]]
      | h :: t => (c1 :: h) :: t

/-- Python `' '.join(...)`. -/
def joinWithSpace : List (List Char) → List Char
  | [] => []
  | [x] => x
  | x :: y :: rest => x ++ ' ' :: joinWithSpace (y :: rest)

/-- The whitespace clean-up of `extract_url_content` (lines 186-188):
split into lines, strip each, split each line on `"  "`, strip each phrase,
join the nonempty chunks with single spaces. -/
def cleanupWhitespace (text : String) : String :=
  let lines := (splitChar '\n' text.data).map (fun line => stripList line)
  let chunks :=
    (lines.map (fun line => (splitTwoSpaces line).map (fun phrase => stripList phrase))).flatten
  String.mk (joinWithSpace (chunks.filter (fun chunk => !(chunk.isEmpty))))

/-- `DocumentProcessor.extract_url_content` (lines 167-193): fetch, parse and
flatten; any exception yields `""`. -/
def extract_url_content (env : Env) (url : String) : String :=
  match env.htmlText url with
  | none => ""
  | some text => cleanupWhitespace text

/-- `DocumentProcessor.get_google_drive_content` (lines 87-141).  Substring
tests on the mime type are in source order; an exception anywhere (metadata
fetch, export, download, decode) is caught and yields `none`, as does the
inner `try/except` of the fallback plain-text export. -/
def get_google_drive_content (env : Env) (file_id : String) : Option String :=
  if !env.driveService then none
  else
    match env.driveMime file_id with
    | none => none
    | some mime_type =>
      if containsSub "google-apps.document" mime_type then
        match env.driveExport file_id "text/plain" with
        | none => none
        | some content => env.decodeUtf8 content
      else if containsSub "google-apps.spreadsheet" mime_type then
        match env.driveExport file_id "text/csv" with
        | none => none
        | some content => env.decodeUtf8 content
      else if containsSub "application/pdf" mime_type then
        match env.driveMedia file_id with
        | none => none
        | some response => some (extract_pdf_text env response)
      else if containsSub "application/vnd.openxmlformats-officedocument.wordprocessingml.document" mime_type then
        match env.driveMedia file_id with
        | none => none
        | some response => some (extract_docx_text env response)
      else
        match env.driveExport file_id "text/plain" with
        | none => none
        | some content => env.decodeUtf8 content

/-- Index of the last character satisfying `p` (Python `str.rfind`). -/
def rfindIdx (p : Char → Bool) (l : List Char) : Option Nat :=
  match l.reverse.findIdx? p with
  | none => none
  | some j => some (l.length - 1 - j)

/-- The extension component of `os.path.splitext(path)` on POSIX: the suffix
from the last dot, provided that dot lies in the basename and is preceded
there by at least one non-dot character. -/
def splitextExt (path : String) : String :=
  let cs := path.data
  let fIdx : Nat :=
    match rfindIdx (fun c => c = '/') cs with
    | none => 0
    | some i => i + 1
  match rfindIdx (fun c => c = '.') cs with
  | none => ""
  | some d =>
    if fIdx ≤ d && ((List.range (d - fIdx)).any fun k => !(cs.getD (fIdx + k) '.' = '.')) then
      String.mk (cs.drop d)
    else ""

/-- An uploaded file as seen by Flask: `filename`, `content_type`, and the
bytes `read()` returns. -/
structure FileUpload where
  filename : String
  content : List Nat
  content_type : String
deriving DecidableEq

/-- The `document_data` dict passed to `process_document`: each field models
the presence of the corresponding key. -/
structure DocumentData where
  file : Option FileUpload := none
  url : Option String := none
  text : Option String := none

/-- The dict returned by `process_document`: either
`{success: True, content, source_type, content_length}` or
`{success: False, error}`. -/
inductive ProcResult where
  | ok (content : String) (source_type : String) (content_length : Nat)
  | err (error : String)
deriving DecidableEq

def truncation_marker : String := "\n\n[Content truncated due to length...]"

def noContentError : String := "No content could be extracted from the document."

def noDataError : String := "No document data provided. Please provide a file, URL, or text."

def driveAccessError : String :=
  "Could not access Google Drive file. Please ensure the file is publicly accessible."

def urlAccessError : String :=
  "Could not extract content from URL. Please check if the URL is accessible."

def unsupportedTypeError (ext : String) : String := "Unsupported file type: " ++ ext

/-- Lines 254-269 of `process_document`: the post-extraction emptiness check
(`if not content or len(content.strip()) == 0`), the 30000-character
truncation, and the success envelope whose `content_length` is the length of
the (possibly truncated) content. -/
def finalize (content : String) (source_type : String) : ProcResult :=
  if content = "" ∨ (pyStrip content).length = 0 then
    .err noContentError
  else if content.length > 30000 then
    .ok (pySlice content 30000 ++ truncation_marker) source_type
      (pySlice content 30000 ++ truncation_marker).length
  else
    .ok content source_type content.length

/-- Lines 219-241 of `process_document`: the url branch, after
`document_data['url'].strip()` was taken.  `extract_google_drive_id` only
produces nonempty ids (the capture groups are `+`), so `if drive_id:`
coincides with the `some` test; `if not content:` on the Drive result is true
for both `None` and the empty string. -/
def handle_url (env : Env) (url : String) : ProcResult :=
  match extract_google_drive_id url with
  | some drive_id =>
    match get_google_drive_content env drive_id with
    | none => .err driveAccessError
    | some content =>
      if content = "" then .err driveAccessError
      else finalize content "Google Drive"
  | none =>
    let content := extract_url_content env url
    if content = "" then .err urlAccessError
    else finalize content "URL"

/-- `DocumentProcessor.process_document` (lines 195-276).  The `'file'` /
`'url'` / `'text'` keys are tested in source order; no modelled operation
raises, so the outer `try/except` (lines 271-276) is unreachable. -/
def process_document (env : Env) (document_data : DocumentData) : ProcResult :=
  match document_data.file with
  | some file =>
    let file_extension := pyLower (splitextExt file.filename)
    if file_extension = ".pdf" then
      finalize (extract_pdf_text env file.content) "PDF"
    else if file_extension = ".docx" ∨ file_extension = ".doc" then
      finalize (extract_docx_text env file.content) "DOCX"
    else
      .err (unsupportedTypeError file_extension)
  | none =>
    match document_data.url with
    | some rawUrl => handle_url env (pyStrip rawUrl)
    | none =>
      match document_data.text with
      | some text => finalize text "Text"
      | none => .err noDataError

/-!
### HTTP glue of `src/backend/app.py`

The Flask session is the only inter-request state; each endpoint is a function
of the session, the request, and the external oracles.
-/

/-- The Flask session keys written by `login` (lines 161-163); a fresh session
has none of them, so `session.get('logged_in')` is falsy. -/
structure Session where
  logged_in : Bool := false
  username : Option String := none
  role : Option String := none
deriving DecidableEq

/-- `analyze_document` result (lines 127-140). -/
inductive AnalysisResult where
  | ok (summary model_used source_type : String) (content_length : Nat)
  | fail (error : String)
deriving DecidableEq

/-- `analyze_image` result (lines 87-98). -/
inductive ImageResult where
  | ok (description model_used : String)
  | fail (error : String)
deriving DecidableEq

/-- The `jsonify(...)` payload shapes produced by the modelled endpoints. -/
inductive Body where
  | error (msg : String)
  | loginSuccess (username role : String)
  | docFailure (result : ProcResult)
  | docAnalysis (result : AnalysisResult)
  | imgAnalysis (result : ImageResult)
deriving DecidableEq

/-- A Flask response: HTTP status code and JSON body. -/
structure Resp where
  status : Nat
  body : Body
deriving DecidableEq

/-- Oracles of `app.py` beyond the document processor. -/
structure AppEnv where
  env : Env
  /-- `model.generate_content(prompt)` on a text prompt: the generated text, or
  the message of the exception it raised. -/
  gemini : String → Except String String
  /-- The image pipeline of `analyze_image` (base64 decode, PIL open and RGB
  conversion, `model.generate_content([prompt, image])`), as a function of the
  prompt and the `image_data` string: the description text, or the message of
  an exception raised anywhere inside the `try`. -/
  vision : String → String → Except String String
  /-- `base64.b64encode(file_content).decode('utf-8')`. -/
  b64encode : List Nat → String

/-- The f-string prompt of `analyze_document` (lines 106-122). -/
def documentPrompt (source_type document_content : String) : String :=
  "\n        Please provide a comprehensive analysis and summary of the following "
    ++ source_type ++
    " document. Include:\n\n        1. **Executive Summary**: A concise overview of the main points and key findings\n        2. **Key Topics**: Identify and list the main topics, themes, or sections covered\n        3. **Important Details**: Highlight critical information, data, or insights\n        4. **Structure Analysis**: Describe the document\x27s organization and flow\n        5. **Key Takeaways**: Summarize the most important conclusions or recommendations\n        6. **Context and Purpose**: Analyze the document\x27s intended audience and purpose\n        7. **Notable Quotes**: Include any significant quotes or statements (if applicable)\n        8. **Action Items**: Identify any actionable items, recommendations, or next steps\n\n        Document Content:\n        "
    ++ document_content ++
    "\n\n        Please provide a well-structured, professional analysis that captures the essence and key points of this document.\n        "

/-- The constant prompt of `analyze_image` (lines 69-82). -/
def imagePrompt : String :=
  "\n        Please provide a comprehensive and detailed analysis of this image. Include:\n\n        1. **Visual Description**: Describe what you see in the image in detail\n        2. **Objects and Elements**: List and describe all visible objects, people, animals, or elements\n        3. **Setting and Environment**: Describe the location, background, and environment\n        4. **Colors and Lighting**: Analyze the color scheme, lighting, and visual atmosphere\n        5. **Composition**: Describe the layout, perspective, and visual composition\n        6. **Mood and Atmosphere**: What feeling or mood does the image convey?\n        7. **Details and Textures**: Describe any notable details, textures, or patterns\n        8. **Potential Context**: What might be happening or what could this image represent?\n\n        Please be thorough and descriptive in your analysis.\n        "

/-- `analyze_document` (lines 100-140). -/
def analyze_document (aenv : AppEnv) (document_content source_type : String) :
    AnalysisResult :=
  match aenv.gemini (documentPrompt source_type document_content) with
  | .ok text => .ok text "Gemini 2.0 Flash" source_type document_content.length
  | .error e => .fail ("Failed to analyze document: " ++ e)

/-- `analyze_image` (lines 55-98). -/
def analyze_image (aenv : AppEnv) (image_data : String) : ImageResult :=
  match aenv.vision imagePrompt image_data with
  | .ok text => .ok text "Gemini 2.0 Flash"
  | .error e => .fail ("Failed to analyze image: " ++ e)

/-- The dummy credential table (lines 40-45): username to (password, role). -/
def DUMMY_USERS (username : String) : Option (String × String) :=
  if username = "admin" then some ("password123", "admin") else none

/-- The JSON body of a login request: which keys are present. -/
structure LoginData where
  username : Option String := none
  password : Option String := none

/-- `login` (lines 142-184): returns the updated session and the response.
Only a successful credential check sets `logged_in`. -/
def login (session : Session) (data : Option LoginData) : Session × Resp :=
  match data with
  | none => (session, ⟨400, .error "Username and password are required"⟩)
  | some d =>
    match d.username, d.password with
    | some username, some password =>
      match DUMMY_USERS username with
      | some (pw, role) =>
        if pw = password then
          ({ logged_in := true, username := some username, role := some role },
            ⟨200, .loginSuccess username role⟩)
        else (session, ⟨401, .error "Invalid credentials"⟩)
      | none => (session, ⟨401, .error "Invalid credentials"⟩)
    | _, _ => (session, ⟨400, .error "Username and password are required"⟩)

/-- The `login_required` decorator (lines 47-53): a falsy
`session.get('logged_in')` short-circuits to 401 without calling the wrapped
handler. -/
def login_required (handler : Session → Resp) (session : Session) : Resp :=
  if !session.logged_in then ⟨401, .error "Authentication required"⟩
  else handler session

/-- A document-analysis request: the `'file'` entry of `request.files`,
whether the request is JSON, and the `'url'` / `'text'` keys of its JSON. -/
structure DocRequest where
  file : Option FileUpload := none
  is_json : Bool := false
  url : Option String := none
  text : Option String := none

/-- An image-analysis request: the `'image'` entry of `request.files`, whether
the request is JSON, and the `'image'` key of its JSON. -/
structure ImgRequest where
  image_file : Option FileUpload := none
  is_json : Bool := false
  image : Option String := none

def invalidFormatError : String :=
  "Invalid request format. Please provide a file upload or JSON data."

/-- Lines 319-328: the tail of `analyze_document_endpoint` once a
`process_document` result is in hand: failures are reported with 400, then the
AI analysis maps to 200 on success and 500 on failure. -/
def finishDocAnalysis (aenv : AppEnv) (result : ProcResult) : Resp :=
  match result with
  | .err e => ⟨400, .docFailure (.err e)⟩
  | .ok content source_type _ =>
    match analyze_document aenv content source_type with
    | .ok s m st cl => ⟨200, .docAnalysis (.ok s m st cl)⟩
    | .fail e => ⟨500, .docAnalysis (.fail e)⟩

/-- The body of `analyze_document_endpoint` (lines 278-335), inside the
`login_required` wrapper. -/
def analyze_document_body (aenv : AppEnv) (req : DocRequest) (_session : Session) :
    Resp :=
  match req.file with
  | some file =>
    if file.filename = "" then ⟨400, .error "No file selected"⟩
    else finishDocAnalysis aenv (process_document aenv.env { file := some file })
  | none =>
    if req.is_json then
      match req.url with
      | some u => finishDocAnalysis aenv (process_document aenv.env { url := some u })
      | none =>
        match req.text with
        | some t =>
          finishDocAnalysis aenv (process_document aenv.env { text := some t })
        | none => ⟨400, .error noDataError⟩
    else ⟨400, .error invalidFormatError⟩

/-- Lines 263-269: run `analyze_image` and map its outcome to 200 / 500. -/
def finishImgAnalysis (aenv : AppEnv) (image_data : String) : Resp :=
  match analyze_image aenv image_data with
  | .ok d m => ⟨200, .imgAnalysis (.ok d m)⟩
  | .fail e => ⟨500, .imgAnalysis (.fail e)⟩

/-- The body of `analyze_image_endpoint` (lines 217-276), inside the
`login_required` wrapper. -/
def analyze_image_body (aenv : AppEnv) (req : ImgRequest) (_session : Session) :
    Resp :=
  match req.image_file with
  | some file =>
    if file.filename = "" then ⟨400, .error "No image file selected"⟩
    else
      finishImgAnalysis aenv
        ("data:image/" ++ file.content_type ++ ";base64," ++ aenv.b64encode file.content)
  | none =>
    if req.is_json then
      match req.image with
      | none => ⟨400, .error "No image data provided"⟩
      | some image_data =>
        if !("data:image/".isPrefixOf image_data) then
          ⟨400, .error "Invalid image format. Please provide a base64 encoded image."⟩
        else finishImgAnalysis aenv image_data
    else ⟨400, .error invalidFormatError⟩

/-- `analyze_document_endpoint` (line 278): `@login_required` applied to the
handler body. -/
def analyze_document_endpoint (aenv : AppEnv) (session : Session)
    (req : DocRequest) : Resp :=
  login_required (analyze_document_body aenv req) session

/-- `analyze_image_endpoint` (line 217). -/
def analyze_image_endpoint (aenv : AppEnv) (session : Session)
    (req : ImgRequest) : Resp :=
  login_required (analyze_image_body aenv req) session

/-! ### Helper lemmas -/

theorem str_length_eq_zero {s : String} : s.length = 0 ↔ s = "" := by
  cases s with
  | mk data =>
    simp [String.length, String.ext_iff]

theorem pyStrip_empty : pyStrip "" = "" := rfl

theorem finalize_ok_inv {raw st c st2 : String} {n : Nat}
    (h : finalize raw st = .ok c st2 n) : n = c.length ∧ st2 = st := by
  unfold finalize at h
  split at h
  · cases h
  · split at h <;> (cases h; exact ⟨rfl, rfl⟩)

theorem finalize_of_strip_empty {raw st : String} (h : pyStrip raw = "") :
    finalize raw st = .err noContentError := by
  unfold finalize
  rw [if_pos (Or.inr (by rw [h]; rfl))]

theorem finalize_err_inv {raw st e : String} (h : finalize raw st = .err e) :
    (raw = "" ∨ (pyStrip raw).length = 0) ∧ e = noContentError := by
  unfold finalize at h
  split at h
  next hcond =>
    cases h
    exact ⟨hcond, rfl⟩
  next =>
    split at h <;> cases h

/-- A test environment instantiating every oracle, used by the witnesses. -/
def envTest : Env where
  pdfPages := fun _ => some ["page one"]
  docxParas := fun _ => some ["para one"]
  htmlText := fun _ => some "hello web"
  driveService := true
  driveMime := fun _ => some "application/vnd.google-apps.document"
  driveExport := fun _ _ => some [104, 105]
  driveMedia := fun _ => some [1]
  decodeUtf8 := fun _ => some "hi"

/-! ### Claims -/

/-- C1: On every successful result of `process_document`, `content_length`
equals the length of the returned content; if the raw extracted content has at
most 30000 characters it is returned unchanged with its own length, and if it
is longer the returned content is its first 30000 characters followed by the
fixed truncation marker, with `content_length = 30000 +` the marker's
length. -/
theorem truncation_policy :
    (∀ raw st, pyStrip raw ≠ "" →
      (raw.length ≤ 30000 → finalize raw st = .ok raw st raw.length) ∧
      (raw.length > 30000 →
        finalize raw st = .ok (pySlice raw 30000 ++ truncation_marker) st
          (30000 + truncation_marker.length))) ∧
    (∀ env d c st n, process_document env d = .ok c st n → n = c.length) := by
  constructor
  · intro raw st hne
    have hcond : ¬(raw = "" ∨ (pyStrip raw).length = 0) := by
      rintro (h | h)
      · exact hne (by rw [h]; exact pyStrip_empty)
      · exact hne (str_length_eq_zero.mp h)
    constructor
    · intro hle
      unfold finalize
      rw [if_neg hcond, if_neg (by omega)]
    · intro hgt
      unfold finalize
      rw [if_neg hcond, if_pos hgt]
      have h1 : (pySlice raw 30000).length = 30000 := by
        show (raw.data.take 30000).length = 30000
        exact List.length_take_of_le (Nat.le_of_lt hgt)
      rw [String.length_append, h1]
  · intro env d c st n h
    rcases d with ⟨file?, url?, text?⟩
    cases file? with
    | some file =>
      simp only [process_document] at h
      split at h
      · exact (finalize_ok_inv h).1
      · split at h
        · exact (finalize_ok_inv h).1
        · cases h
    | none =>
      cases url? with
      | some rawUrl =>
        simp only [process_document, handle_url] at h
        split at h
        · split at h
          · cases h
          · split at h
            · cases h
            · exact (finalize_ok_inv h).1
        · split at h
          · cases h
          · exact (finalize_ok_inv h).1
      | none =>
        cases text? with
        | some t =>
          simp only [process_document] at h
          exact (finalize_ok_inv h).1
        | none =>
          simp only [process_document] at h
          cases h

theorem truncation_policy_witness :
    finalize "abc" "Text" = .ok "abc" "Text" "abc".length ∧
    (3 : Nat) = "abc".length := by
  constructor
  · exact (truncation_policy.1 "abc" "Text" (by decide)).1 (by decide)
  · exact truncation_policy.2 envTest { text := some "abc" } "abc" "Text" 3 (by decide)

/-- C2: `process_document` dispatches in the fixed priority order `file`,
`url`, `text`: with a `file` key present the `url` and `text` keys are
irrelevant (the result equals that of the file-only input), with a `url` key
present the `text` key is irrelevant, and with none of the three keys the
result is the "no document data provided" failure. -/
theorem dispatch_priority :
    (∀ env file u t,
      process_document env { file := some file, url := u, text := t } =
        process_document env { file := some file }) ∧
    (∀ env u t,
      process_document env { url := some u, text := t } =
        process_document env { url := some u }) ∧
    (∀ env, process_document env {} = .err noDataError) :=
  ⟨fun _ _ _ _ => rfl, fun _ _ _ => rfl, fun _ => rfl⟩

/-- C3: on the file path, dispatch is by (lowercased) file extension:
`.pdf` runs the PDF extractor with source type "PDF", `.docx` and `.doc` run
the DOCX extractor with source type "DOCX", and any other extension is an
immediate failure naming the extension, independent of the extractors. -/
theorem extension_dispatch (env : Env) (f : FileUpload) :
    (pyLower (splitextExt f.filename) = ".pdf" →
      process_document env { file := some f } =
        finalize (extract_pdf_text env f.content) "PDF") ∧
    (pyLower (splitextExt f.filename) = ".docx" ∨
        pyLower (splitextExt f.filename) = ".doc" →
      process_document env { file := some f } =
        finalize (extract_docx_text env f.content) "DOCX") ∧
    (pyLower (splitextExt f.filename) ≠ ".pdf" →
      pyLower (splitextExt f.filename) ≠ ".docx" →
      pyLower (splitextExt f.filename) ≠ ".doc" →
      process_document env { file := some f } =
        .err (unsupportedTypeError (pyLower (splitextExt f.filename)))) := by
  refine ⟨fun h => ?_, fun h => ?_, fun h1 h2 h3 => ?_⟩
  · simp only [process_document]
    rw [if_pos h]
  · simp only [process_document]
    rcases h with h | h
    · rw [if_neg (by rw [h]; decide), if_pos (Or.inl h)]
    · rw [if_neg (by rw [h]; decide), if_pos (Or.inr h)]
  · simp only [process_document]
    rw [if_neg h1, if_neg (by tauto)]

theorem extension_dispatch_witness :
    process_document envTest { file := some ⟨"notes.txt", [], ""⟩ } =
      .err (unsupportedTypeError ".txt") :=
  (extension_dispatch envTest ⟨"notes.txt", [], ""⟩).2.2
    (by decide) (by decide) (by decide)

/-- C9: the file extension is lowercased before comparison, so two filenames
whose extensions agree up to case are processed identically; in particular
"report.PDF" is processed exactly like "report.pdf". -/
theorem extension_case_insensitive :
    (∀ env n1 n2 content ct, pyLower (splitextExt n1) = pyLower (splitextExt n2) →
      process_document env { file := some ⟨n1, content, ct⟩ } =
        process_document env { file := some ⟨n2, content, ct⟩ }) ∧
    (∀ env content ct,
      process_document env { file := some ⟨"report.PDF", content, ct⟩ } =
        process_document env { file := some ⟨"report.pdf", content, ct⟩ }) := by
  have key : ∀ (env : Env) n1 n2 content ct,
      pyLower (splitextExt n1) = pyLower (splitextExt n2) →
      process_document env { file := some ⟨n1, content, ct⟩ } =
        process_document env { file := some ⟨n2, content, ct⟩ } := by
    intro env n1 n2 content ct h
    simp only [process_document]
    rw [h]
  exact ⟨key, fun env content ct =>
    key env "report.PDF" "report.pdf" content ct (by decide)⟩

theorem extension_case_insensitive_witness :
    process_document envTest { file := some ⟨"a.DOCX", [], ""⟩ } =
      process_document envTest { file := some ⟨"a.docx", [], ""⟩ } :=
  extension_case_insensitive.1 envTest "a.DOCX" "a.docx" [] "" (by decide)

theorem stripList_pad (u : List Char) {w1 w2 : List Char}
    (h1 : w1.all isSpace) (h2 : w2.all isSpace) :
    stripList (w1 ++ u ++ w2) = stripList u := by
  have hw1 := List.all_eq_true.mp h1
  have hw2 := List.all_eq_true.mp h2
  have hw2r : ∀ a ∈ w2.reverse, isSpace a := fun a ha => hw2 a (List.mem_reverse.mp ha)
  unfold stripList
  rw [List.append_assoc, List.dropWhile_append_of_pos hw1, List.dropWhile_append]
  by_cases hu : (u.dropWhile isSpace).isEmpty
  · rw [if_pos hu, List.isEmpty_iff.mp hu, List.dropWhile_eq_nil_iff.mpr hw2]
  · rw [if_neg hu, List.reverse_append, List.dropWhile_append_of_pos hw2r]

theorem pyStrip_pad (u : String) {w1 w2 : String}
    (h1 : w1.data.all isSpace) (h2 : w2.data.all isSpace) :
    pyStrip (w1 ++ u ++ w2) = pyStrip u := by
  unfold pyStrip
  rw [String.data_append, String.data_append]
  exact congrArg String.mk (stripList_pad u.data h1 h2)

/-- C10: on the url path the input is stripped (`document_data['url'].strip()`,
line 221) before the Drive-pattern test and before any fetch: the url branch
is a function of the stripped url only, and surrounding a URL with whitespace
does not change the result. -/
theorem url_whitespace_insensitive :
    (∀ env rawUrl, process_document env { url := some rawUrl } =
      handle_url env (pyStrip rawUrl)) ∧
    (∀ env u w1 w2, w1.data.all isSpace → w2.data.all isSpace →
      process_document env { url := some (w1 ++ u ++ w2) } =
        process_document env { url := some u }) := by
  refine ⟨fun env rawUrl => rfl, fun env u w1 w2 h1 h2 => ?_⟩
  simp only [process_document]
  rw [pyStrip_pad u h1 h2]

theorem url_whitespace_insensitive_witness :
    process_document envTest { url := some (" " ++ "http://example.com" ++ "\n") } =
      process_document envTest { url := some "http://example.com" } :=
  url_whitespace_insensitive.2 envTest "http://example.com" " " "\n"
    (by decide) (by decide)

/-- An environment whose URL fetch succeeds but yields a page with no visible
text (`soup.get_text()` returns the empty string), so that
`extract_url_content` returns `""`. -/
def envEmptyPage : Env where
  pdfPages := fun _ => none
  docxParas := fun _ => none
  htmlText := fun _ => some ""
  driveService := false
  driveMime := fun _ => none
  driveExport := fun _ _ => none
  driveMedia := fun _ => none
  decodeUtf8 := fun _ => none

/-- C4 counterexample: on the url path with empty extracted content the code
returns the URL-specific inaccessibility error (line 237-241), not the
"No content could be extracted" error the claim requires. -/
theorem empty_content_policy_counterexample :
    extract_url_content envEmptyPage "http://example.com" = "" ∧
    process_document envEmptyPage { url := some "http://example.com" } =
      .err urlAccessError ∧
    ProcResult.err urlAccessError ≠ ProcResult.err noContentError := by
  refine ⟨rfl, by decide, by decide⟩

/-- C4 (amended): on the file and text paths, empty or whitespace-only
extracted content yields the "No content could be extracted" failure; on the
url path that failure occurs *only* for whitespace-only but nonempty extracted
content (generic URL or Drive alike — the last conjunct proves the converse),
while empty extracted content is short-circuited into the URL-specific
inaccessibility failure, and a Drive fetch returning nothing or the empty
string into the Drive-specific one, instead. -/
theorem empty_content_policy :
    (∀ env t, pyStrip t = "" →
      process_document env { text := some t } = .err noContentError) ∧
    (∀ env f, pyLower (splitextExt f.filename) = ".pdf" →
      pyStrip (extract_pdf_text env f.content) = "" →
      process_document env { file := some f } = .err noContentError) ∧
    (∀ env f, pyLower (splitextExt f.filename) = ".docx" ∨
        pyLower (splitextExt f.filename) = ".doc" →
      pyStrip (extract_docx_text env f.content) = "" →
      process_document env { file := some f } = .err noContentError) ∧
    (∀ env u, extract_google_drive_id (pyStrip u) = none →
      extract_url_content env (pyStrip u) ≠ "" →
      pyStrip (extract_url_content env (pyStrip u)) = "" →
      process_document env { url := some u } = .err noContentError) ∧
    (∀ env u, extract_google_drive_id (pyStrip u) = none →
      extract_url_content env (pyStrip u) = "" →
      process_document env { url := some u } = .err urlAccessError) ∧
    (∀ env u did c, extract_google_drive_id (pyStrip u) = some did →
      get_google_drive_content env did = some c → c ≠ "" → pyStrip c = "" →
      process_document env { url := some u } = .err noContentError) ∧
    (∀ env u did, extract_google_drive_id (pyStrip u) = some did →
      get_google_drive_content env did = none →
      process_document env { url := some u } = .err driveAccessError) ∧
    (∀ env u did, extract_google_drive_id (pyStrip u) = some did →
      get_google_drive_content env did = some "" →
      process_document env { url := some u } = .err driveAccessError) ∧
    (∀ env u, process_document env { url := some u } = .err noContentError →
      ∃ c, c ≠ "" ∧ pyStrip c = "" ∧
        ((∃ did, extract_google_drive_id (pyStrip u) = some did ∧
            get_google_drive_content env did = some c) ∨
         (extract_google_drive_id (pyStrip u) = none ∧
            extract_url_content env (pyStrip u) = c))) := by
  refine ⟨fun env t h => ?_, fun env f hext h => ?_, fun env f hext h => ?_,
    fun env u hd hne h => ?_, fun env u hd h => ?_,
    fun env u did c hd hc hne h => ?_, fun env u did hd hg => ?_,
    fun env u did hd hg => ?_, fun env u h => ?_⟩
  · simp only [process_document]
    exact finalize_of_strip_empty h
  · simp only [process_document]
    rw [if_pos hext]
    exact finalize_of_strip_empty h
  · simp only [process_document]
    rcases hext with hext | hext
    · rw [if_neg (by rw [hext]; decide), if_pos (Or.inl hext)]
      exact finalize_of_strip_empty h
    · rw [if_neg (by rw [hext]; decide), if_pos (Or.inr hext)]
      exact finalize_of_strip_empty h
  · simp only [process_document, handle_url, hd]
    rw [if_neg hne]
    exact finalize_of_strip_empty h
  · simp only [process_document, handle_url, hd]
    rw [if_pos h]
  · simp only [process_document, handle_url, hd, hc]
    rw [if_neg hne]
    exact finalize_of_strip_empty h
  · simp only [process_document, handle_url, hd, hg]
  · simp [process_document, handle_url, hd, hg]
  · cases hid : extract_google_drive_id (pyStrip u) with
    | some did =>
      cases hg : get_google_drive_content env did with
      | none =>
        simp [process_document, handle_url, hid, hg, driveAccessError,
          noContentError] at h
      | some c =>
        by_cases hc : c = ""
        · simp [process_document, handle_url, hid, hg, hc, driveAccessError,
            noContentError] at h
        · simp only [process_document, handle_url, hid, hg] at h
          rw [if_neg hc] at h
          rcases finalize_err_inv h with ⟨hor, -⟩
          rcases hor with hor | hor
          · exact absurd hor hc
          · exact ⟨c, hc, str_length_eq_zero.mp hor, Or.inl ⟨did, rfl, hg⟩⟩
    | none =>
      by_cases hc : extract_url_content env (pyStrip u) = ""
      · simp [process_document, handle_url, hid, hc, urlAccessError,
          noContentError] at h
      · simp only [process_document, handle_url, hid] at h
        rw [if_neg hc] at h
        rcases finalize_err_inv h with ⟨hor, -⟩
        rcases hor with hor | hor
        · exact absurd hor hc
        · exact ⟨extract_url_content env (pyStrip u), hc,
            str_length_eq_zero.mp hor, Or.inr ⟨rfl, rfl⟩⟩

theorem empty_content_policy_witness :
    process_document envTest { text := some " \t " } = .err noContentError ∧
    process_document envEmptyPage
        { url := some "https://drive.google.com/file/d/ABC/view" } =
      .err driveAccessError := by
  constructor
  · exact empty_content_policy.1 envTest " \t " (by decide)
  · exact empty_content_policy.2.2.2.2.2.2.1 envEmptyPage
      "https://drive.google.com/file/d/ABC/view" "ABC" (by decide) (by decide)

/-- C5: `extract_google_drive_id` tries the four patterns in order
(`/file/d/`, `[?&]id=`, `/document/d/`, `/spreadsheets/d/`) and returns the
first match's capture group; it returns `none` whenever the URL does not
contain the substring "drive.google.com" or no pattern matches; on
"https://drive.google.com/file/d/ABC123/view" it returns "ABC123". -/
theorem drive_id_extraction :
    (∀ url, containsSub "drive.google.com" url = false →
      extract_google_drive_id url = none) ∧
    (∀ url g, searchLitId "/file/d/".data url.data = some g →
      containsSub "drive.google.com" url = true →
      extract_google_drive_id url = some (String.mk g)) ∧
    (∀ url g, searchLitId "/file/d/".data url.data = none →
      searchQueryId url.data = some g →
      containsSub "drive.google.com" url = true →
      extract_google_drive_id url = some (String.mk g)) ∧
    (∀ url g, searchLitId "/file/d/".data url.data = none →
      searchQueryId url.data = none →
      searchLitId "/document/d/".data url.data = some g →
      containsSub "drive.google.com" url = true →
      extract_google_drive_id url = some (String.mk g)) ∧
    (∀ url g, searchLitId "/file/d/".data url.data = none →
      searchQueryId url.data = none →
      searchLitId "/document/d/".data url.data = none →
      searchLitId "/spreadsheets/d/".data url.data = some g →
      containsSub "drive.google.com" url = true →
      extract_google_drive_id url = some (String.mk g)) ∧
    (∀ url, searchLitId "/file/d/".data url.data = none →
      searchQueryId url.data = none →
      searchLitId "/document/d/".data url.data = none →
      searchLitId "/spreadsheets/d/".data url.data = none →
      extract_google_drive_id url = none) ∧
    extract_google_drive_id "https://drive.google.com/file/d/ABC123/view" =
      some "ABC123" := by
  refine ⟨fun url h => ?_, fun url g h1 hc => ?_, fun url g h1 h2 hc => ?_,
    fun url g h1 h2 h3 hc => ?_, fun url g h1 h2 h3 h4 hc => ?_,
    fun url h1 h2 h3 h4 => ?_, by decide⟩
  · simp [extract_google_drive_id, h]
  · simp [extract_google_drive_id, h1, hc]
  · simp [extract_google_drive_id, h1, h2, hc]
  · simp [extract_google_drive_id, h1, h2, h3, hc]
  · simp [extract_google_drive_id, h1, h2, h3, h4, hc]
  · simp only [extract_google_drive_id, h1, h2, h3, h4]
    split <;> rfl

theorem drive_id_extraction_witness :
    extract_google_drive_id "http://example.com" = none ∧
    extract_google_drive_id "https://drive.google.com/open?id=XYZ_9" =
      some (String.mk "XYZ_9".data) := by
  constructor
  · exact drive_id_extraction.1 "http://example.com" (by decide)
  · exact drive_id_extraction.2.2.1 "https://drive.google.com/open?id=XYZ_9"
      "XYZ_9".data (by decide) (by decide) (by decide)

/-- The output shape the claim describes for the extractors: the fragments in
order, each followed by one newline. -/
def concatNewlines : List String → String
  | [] => ""
  | p :: ps => (p ++ "\n") ++ concatNewlines ps

theorem foldl_concatNewlines (ps : List String) (acc : String) :
    ps.foldl (fun text page => text ++ page ++ "\n") acc =
      acc ++ concatNewlines ps := by
  induction ps generalizing acc with
  | nil => simp [concatNewlines]
  | cons p ps ih =>
    rw [List.foldl_cons, ih]
    simp only [concatNewlines]
    simp [String.append_assoc]

/-- C6: the three extractors are total functions: whenever the underlying
library raises, `extract_pdf_text`, `extract_docx_text` and
`extract_url_content` return the empty string; on success the PDF extractor
returns the pages' texts in page order, each followed by a newline, with the
final result stripped of leading and trailing whitespace, and the DOCX
extractor does the same with the paragraphs' texts in document order. -/
theorem extractors_never_raise :
    (∀ env s, env.pdfPages s = none → extract_pdf_text env s = "") ∧
    (∀ env s pages, env.pdfPages s = some pages →
      extract_pdf_text env s = pyStrip (concatNewlines pages)) ∧
    (∀ env s, env.docxParas s = none → extract_docx_text env s = "") ∧
    (∀ env s paras, env.docxParas s = some paras →
      extract_docx_text env s = pyStrip (concatNewlines paras)) ∧
    (∀ env u, env.htmlText u = none → extract_url_content env u = "") := by
  refine ⟨fun env s h => ?_, fun env s pages h => ?_, fun env s h => ?_,
    fun env s paras h => ?_, fun env u h => ?_⟩
  · simp [extract_pdf_text, h]
  · simp [extract_pdf_text, h, foldl_concatNewlines]
  · simp [extract_docx_text, h]
  · simp [extract_docx_text, h, foldl_concatNewlines]
  · simp [extract_url_content, h]

theorem extractors_never_raise_witness :
    extract_pdf_text envTest [7] = pyStrip (concatNewlines ["page one"]) :=
  extractors_never_raise.2.1 envTest [7] ["page one"] rfl

/-- C7: `get_google_drive_content` returns `none` immediately when the Drive
service is unavailable; otherwise it dispatches on the fetched mime type:
Google-native documents are exported as plain text and Google-native
spreadsheets as CSV (both UTF-8-decoded), a PDF mime type downloads the raw
bytes and runs the PDF extractor, a Word-processor mime type downloads the
raw bytes and runs the DOCX extractor, and any other mime type attempts a
plain-text export, yielding `none` when that fails. -/
theorem drive_content_dispatch (env : Env) (fid : String) :
    (env.driveService = false → get_google_drive_content env fid = none) ∧
    (∀ mime, env.driveService = true → env.driveMime fid = some mime →
      ((containsSub "google-apps.document" mime = true →
        get_google_drive_content env fid =
          (env.driveExport fid "text/plain").bind env.decodeUtf8) ∧
       (containsSub "google-apps.document" mime = false →
        containsSub "google-apps.spreadsheet" mime = true →
        get_google_drive_content env fid =
          (env.driveExport fid "text/csv").bind env.decodeUtf8) ∧
       (containsSub "google-apps.document" mime = false →
        containsSub "google-apps.spreadsheet" mime = false →
        containsSub "application/pdf" mime = true →
        get_google_drive_content env fid =
          (env.driveMedia fid).map (fun bs => extract_pdf_text env bs)) ∧
       (containsSub "google-apps.document" mime = false →
        containsSub "google-apps.spreadsheet" mime = false →
        containsSub "application/pdf" mime = false →
        containsSub "application/vnd.openxmlformats-officedocument.wordprocessingml.document" mime = true →
        get_google_drive_content env fid =
          (env.driveMedia fid).map (fun bs => extract_docx_text env bs)) ∧
       (containsSub "google-apps.document" mime = false →
        containsSub "google-apps.spreadsheet" mime = false →
        containsSub "application/pdf" mime = false →
        containsSub "application/vnd.openxmlformats-officedocument.wordprocessingml.document" mime = false →
        get_google_drive_content env fid =
          (env.driveExport fid "text/plain").bind env.decodeUtf8))) := by
  refine ⟨fun h => ?_, fun mime hs hm =>
    ⟨fun h1 => ?_, fun h1 h2 => ?_, fun h1 h2 h3 => ?_,
     fun h1 h2 h3 h4 => ?_, fun h1 h2 h3 h4 => ?_⟩⟩
  · simp [get_google_drive_content, h]
  · simp only [get_google_drive_content, hs, hm, h1, Bool.not_true,
      Bool.false_eq_true, if_false, if_true]
    cases env.driveExport fid "text/plain" <;> rfl
  · simp only [get_google_drive_content, hs, hm, h1, h2, Bool.not_true,
      Bool.false_eq_true, if_false, if_true]
    cases env.driveExport fid "text/csv" <;> rfl
  · simp only [get_google_drive_content, hs, hm, h1, h2, h3, Bool.not_true,
      Bool.false_eq_true, if_false, if_true]
    cases env.driveMedia fid <;> rfl
  · simp only [get_google_drive_content, hs, hm, h1, h2, h3, h4, Bool.not_true,
      Bool.false_eq_true, if_false, if_true]
    cases env.driveMedia fid <;> rfl
  · simp only [get_google_drive_content, hs, hm, h1, h2, h3, h4, Bool.not_true,
      Bool.false_eq_true, if_false, if_true]
    cases env.driveExport fid "text/plain" <;> rfl

theorem drive_content_dispatch_witness :
    get_google_drive_content envTest "fileX" =
      (envTest.driveExport "fileX" "text/plain").bind envTest.decodeUtf8 :=
  ((drive_content_dispatch envTest "fileX").2 "application/vnd.google-apps.document"
    rfl rfl).1 (by decide)

/-- A test environment for the app-level oracles, used by the witnesses. -/
def appEnvTest : AppEnv where
  env := envTest
  gemini := fun _ => .ok "summary text"
  vision := fun _ _ => .ok "description text"
  b64encode := fun _ => "QQ=="

/-- C8: a request to the document-analysis or image-analysis endpoint whose
session has no successful prior login (`logged_in` falsy — the state of a
fresh session, which only a successful `login` changes) is answered 401
"Authentication required", and the response does not depend on the document
processor or AI oracles: neither is invoked. -/
theorem auth_gate (aenv : AppEnv) (s : Session) (rdoc : DocRequest)
    (rimg : ImgRequest) (h : s.logged_in = false) :
    analyze_document_endpoint aenv s rdoc = ⟨401, .error "Authentication required"⟩ ∧
    analyze_image_endpoint aenv s rimg = ⟨401, .error "Authentication required"⟩ ∧
    (∀ aenv2 : AppEnv,
      analyze_document_endpoint aenv2 s rdoc = analyze_document_endpoint aenv s rdoc ∧
      analyze_image_endpoint aenv2 s rimg = analyze_image_endpoint aenv s rimg) := by
  simp [analyze_document_endpoint, analyze_image_endpoint, login_required, h]

theorem auth_gate_witness :
    analyze_document_endpoint appEnvTest {} { text := some "hello" } =
      ⟨401, .error "Authentication required"⟩ ∧
    analyze_image_endpoint appEnvTest {} {} =
      ⟨401, .error "Authentication required"⟩ := by
  have h := auth_gate appEnvTest {} { text := some "hello" } {} rfl
  exact ⟨h.1, h.2.1⟩

end Plivo
